import Mathlib

/-!
Shallow embedding of the `flat-fluids` repository (src/flat_fluids/surface.py
and src/flat_fluids/fluid.py) over exact arithmetic (`ℚ`, with `ℝ` only where
the source takes a square root), together with theorems settling the frozen
claims about the natural-language specification.

Conventions:
* Python exceptions are modelled by `Except Err`; the `Err` constructors stand
  for the Python exception classes raised by the source (`ValueError`,
  `TypeError`, `IndexError`, `ZeroDivisionError`).
* numpy arrays are modelled by `NDArr` (a shape together with flat data) and,
  for the image, by a list of rows of RGB triples.
* Python's dynamic operator dispatch is modelled by `PyVal`: a value in an
  arithmetic expression is a scalar, a numpy array, or an `Array2D` instance;
  an arithmetic operation involving an `Array2D` instance raises `TypeError`
  because the class defines no arithmetic operators, exactly as in Python.
-/

namespace FlatFluids

/-- Python exception kinds raised by the source code. `valueError` covers the
`ValueError`s raised by the validation code (the spec's RangeError /
OutOfBounds / ShapeMismatch); `typeError` an unsupported operand `TypeError`;
`indexError` a numpy out-of-bounds `IndexError`; `zeroDivisionError` a scalar
division by zero. -/
inductive Err where
  | valueError
  | typeError
  | indexError
  | zeroDivisionError
deriving DecidableEq

/-! ### surface.py : Grid -/

/-- `Grid` from surface.py: shape, scale and the derived cell geometry
(`dx`, `dy`, `cell_area`) that `Grid.__init__` stores.  The all-true `valid`
mask is not needed by any claim and is omitted. -/
structure Grid where
  shape : ℕ × ℕ
  scale : ℚ
  dx : ℚ
  dy : ℚ
  cell_area : ℚ
deriving DecidableEq

/-- Literal transcription of `Grid._is_in`'s loop over the axes: for each axis
it returns `False` when `pos < 0 and pos > self.shape[idx]`, otherwise it
falls through and returns `True`. -/
def is_in_shape (shape : ℕ × ℕ) (position : ℤ × ℤ) : Bool :=
  if position.1 < 0 ∧ position.1 > (shape.1 : ℤ) then false
  else if position.2 < 0 ∧ position.2 > (shape.2 : ℤ) then false
  else true

/-- `Grid._is_in(position)`. -/
def Grid.is_in (g : Grid) (position : ℤ × ℤ) : Bool :=
  is_in_shape g.shape position

/-- `Grid._cell_length`: `scale / max(shape)`, raising `ZeroDivisionError`
when `max(shape) = 0` (Python's division) and `ValueError` ("Cell length must
be a positive number.") when the quotient is not strictly positive. -/
def Grid.cell_length (shape : ℕ × ℕ) (scale : ℚ) : Except Err ℚ :=
  let max_length : ℕ := max shape.1 shape.2
  if max_length = 0 then .error .zeroDivisionError
  else
    let cell_length : ℚ := scale / (max_length : ℚ)
    if cell_length ≤ 0 then .error .valueError
    else .ok cell_length

/-- `Grid.__init__(shape, scale)`: computes `dx` and `dy` by two calls to
`_cell_length` and `cell_area = dx * dy` via `_cell_area`. -/
def Grid.init (shape : ℕ × ℕ) (scale : ℚ) : Except Err Grid := do
  let dx ← Grid.cell_length shape scale
  let dy ← Grid.cell_length shape scale
  .ok { shape := shape, scale := scale, dx := dx, dy := dy, cell_area := dx * dy }

/-! ### fluid.py : arrays and Python operator semantics -/

/-- A numpy ndarray of rationals: its shape and its flat (row-major) data. -/
structure NDArr where
  shape : List ℕ
  data : List ℚ
deriving DecidableEq

/-- `len(np.shape(value))`. -/
def NDArr.ndim (a : NDArr) : ℕ := a.shape.length

/-- `Array2D` from fluid.py: the validated value together with the cell
lengths; `self.shape = np.shape(value)` is stored as a field. -/
structure Array2D where
  value : NDArr
  dx : ℚ
  dy : ℚ
  shape : List ℕ
deriving DecidableEq

/-- `Array2D.__init__`: raises `ValueError` ("Value must contain two
dimensions.") unless the value is 2-dimensional, and `ValueError` ("Cell
lengths must be a real positive number.") unless `dx > 0` and `dy > 0`. -/
def Array2D.init (value : NDArr) (dx dy : ℚ) : Except Err Array2D :=
  if value.ndim ≠ 2 then .error .valueError
  else if dx ≤ 0 ∨ dy ≤ 0 then .error .valueError
  else .ok { value := value, dx := dx, dy := dy, shape := value.shape }

/-- A Python value appearing in the arithmetic expressions of fluid.py: a
scalar, a numpy array, or an `Array2D` instance. -/
inductive PyVal where
  | num (q : ℚ)
  | nd (a : NDArr)
  | obj (a : Array2D)
deriving DecidableEq

/-- Python/numpy binary arithmetic for an operator `f`: scalar-scalar,
scalar broadcast against an array, and elementwise array-array on equal
shapes (general numpy broadcasting of unequal shapes is not exercised by
fluid.py and is modelled as numpy's broadcast `ValueError`).  An `Array2D`
instance defines no arithmetic operators, so any operation involving one
raises `TypeError`, as in Python. -/
def npBinop (f : ℚ → ℚ → ℚ) : PyVal → PyVal → Except Err PyVal
  | .num a, .num b => .ok (.num (f a b))
  | .num a, .nd b => .ok (.nd ⟨b.shape, b.data.map (fun x => f a x)⟩)
  | .nd a, .num b => .ok (.nd ⟨a.shape, a.data.map (fun x => f x b)⟩)
  | .nd a, .nd b =>
      if a.shape = b.shape then .ok (.nd ⟨a.shape, List.zipWith f a.data b.data⟩)
      else .error .valueError
  | _, _ => .error .typeError

/-- Python `+`. -/
def npAdd : PyVal → PyVal → Except Err PyVal := npBinop (· + ·)

/-- Python `-`. -/
def npSub : PyVal → PyVal → Except Err PyVal := npBinop (· - ·)

/-- Python `*`. -/
def npMul : PyVal → PyVal → Except Err PyVal := npBinop (· * ·)

/-- Python `/`: as `npBinop (· / ·)` except that a scalar divided by the
scalar zero raises `ZeroDivisionError` (numpy array division by zero only
warns, which exact arithmetic models by Lean's `x / 0 = 0`). -/
def npDiv : PyVal → PyVal → Except Err PyVal
  | .num a, .num b =>
      if b = 0 then .error .zeroDivisionError else .ok (.num (a / b))
  | a, b => npBinop (· / ·) a b

/-- Python `** n` for a literal natural exponent (`x_velocity**2`). -/
def npPowNat (v : PyVal) (n : ℕ) : Except Err PyVal :=
  match v with
  | .num a => .ok (.num (a ^ n))
  | .nd a => .ok (.nd ⟨a.shape, a.data.map (fun x => x ^ n)⟩)
  | .obj _ => .error .typeError

/-! ### fluid.py : Fluid -/

/-- `Fluid`: the grid, `gamma`, and the four stored primitive-variable
arrays, in the order `Fluid.__init__` assigns them. -/
structure Fluid where
  grid : Grid
  gamma : ℚ
  density : Array2D
  pressure : Array2D
  x_velocity : Array2D
  y_velocity : Array2D
deriving DecidableEq

/-- `Fluid.__array(values)`: `Array2D(values, self.grid.dx, self.grid.dy)`.
`np.shape` of a scalar or of a generic object is `()`, whose length is not 2,
so `Array2D.__init__` raises `ValueError` for those. -/
def gridArray (g : Grid) (values : PyVal) : Except Err Array2D :=
  match values with
  | .nd a => Array2D.init a g.dx g.dy
  | _ => .error .valueError

/-- `Fluid.__create_flat_array(value)`: `np.full(self.grid.shape, value)`
wrapped by `__array`. -/
def createFlatArray (g : Grid) (value : ℚ) : Except Err Array2D :=
  gridArray g (.nd ⟨[g.shape.1, g.shape.2], List.replicate (g.shape.1 * g.shape.2) value⟩)

/-- `Fluid.__init__(grid, gamma)`: stores the grid and gamma and creates the
four flat initial primitive arrays (density 1.2, pressure 1.01325, both
velocities 0). -/
def Fluid.init (grid : Grid) (gamma : ℚ) : Except Err Fluid := do
  let density ← createFlatArray grid (6 / 5)
  let pressure ← createFlatArray grid (4053 / 4000)
  let x_velocity ← createFlatArray grid 0
  let y_velocity ← createFlatArray grid 0
  .ok { grid := grid, gamma := gamma, density := density, pressure := pressure,
        x_velocity := x_velocity, y_velocity := y_velocity }

/-- `Fluid._density(mass)`: `mass / self.grid.cell_area`, wrapped by
`__array`.  The argument is the Python value actually supplied at the call
site (`update_primitive` passes an `Array2D` instance). -/
def Fluid.densityOf (f : Fluid) (mass : PyVal) : Except Err Array2D := do
  let density ← npDiv mass (.num f.grid.cell_area)
  gridArray f.grid density

/-- `Fluid._velocity(momentum, density)`:
`momentum / (density * self.grid.cell_area)`, wrapped by `__array`. -/
def Fluid.velocityOf (f : Fluid) (momentum density : PyVal) : Except Err Array2D := do
  let denom ← npMul density (.num f.grid.cell_area)
  let velocity ← npDiv momentum denom
  gridArray f.grid velocity

/-- `Fluid._pressure(energy, density, x_velocity, y_velocity)`:
`(energy / self.grid.cell_area - 0.5 * density * (x_velocity**2 +
y_velocity**2)) * (self.gamma - 1)`, wrapped by `__array`, with the operations
in Python's evaluation order. -/
def Fluid.pressureOf (f : Fluid) (energy density x_velocity y_velocity : PyVal) :
    Except Err Array2D := do
  let internal ← npDiv energy (.num f.grid.cell_area)
  let halfRho ← npMul (.num (1 / 2)) density
  let vx2 ← npPowNat x_velocity 2
  let vy2 ← npPowNat y_velocity 2
  let ke ← npAdd vx2 vy2
  let kinetic ← npMul halfRho ke
  let diff ← npSub internal kinetic
  let pressure ← npMul diff (.num (f.gamma - 1))
  gridArray f.grid pressure

/-- `Fluid.update_primitive(mass, x_momentum, y_momentum, energy)`: computes
density, the two velocities and the pressure in that order from the supplied
`Array2D` arguments, and only then replaces the four stored arrays (so on any
exception nothing is stored).  Note that `_density` receives the `Array2D`
argument itself and the later helpers receive the freshly built `Array2D`
results, exactly as the Python call sites pass them. -/
def Fluid.update_primitive (f : Fluid) (mass x_momentum y_momentum energy : Array2D) :
    Except Err Fluid := do
  let density ← f.densityOf (.obj mass)
  let x_velocity ← f.velocityOf (.obj x_momentum) (.obj density)
  let y_velocity ← f.velocityOf (.obj y_momentum) (.obj density)
  let pressure ← f.pressureOf (.obj energy) (.obj density) (.obj x_velocity) (.obj y_velocity)
  .ok { f with density := density, x_velocity := x_velocity,
               y_velocity := y_velocity, pressure := pressure }

/-- Modelled from the spec (§4.4): the intended `update_primitive`, with the
stated formulas acting elementwise on the underlying arrays.  The source's
literal `update_primitive` cannot execute these formulas because `Array2D`
defines no arithmetic operators; this definition follows the spec's words
`density(mass) = mass / grid.cell_area`,
`velocity(momentum, density) = momentum / (density * grid.cell_area)` and
`pressure(energy, density, vx, vy) = (energy / grid.cell_area -
0.5 * density * (vx^2 + vy^2)) * (gamma - 1)`, computed in that order, and
returns the four primitive arrays `(density, x_velocity, y_velocity,
pressure)`. -/
def update_primitive_spec (g : Grid) (gamma : ℚ) (mass x_momentum y_momentum energy : NDArr) :
    NDArr × NDArr × NDArr × NDArr :=
  let density : NDArr := ⟨mass.shape, mass.data.map (fun m => m / g.cell_area)⟩
  let x_velocity : NDArr :=
    ⟨x_momentum.shape,
     List.zipWith (fun mom d => mom / (d * g.cell_area)) x_momentum.data density.data⟩
  let y_velocity : NDArr :=
    ⟨y_momentum.shape,
     List.zipWith (fun mom d => mom / (d * g.cell_area)) y_momentum.data density.data⟩
  let pressure : NDArr :=
    ⟨energy.shape,
     List.zipWith (fun e dvv => (e / g.cell_area - 1 / 2 * dvv.1 * (dvv.2.1 ^ 2 + dvv.2.2 ^ 2))
         * (gamma - 1))
       energy.data
       (List.zipWith (fun d vv => (d, vv.1, vv.2))
         density.data (List.zipWith (fun vx vy => (vx, vy)) x_velocity.data y_velocity.data))⟩
  (density, x_velocity, y_velocity, pressure)

/-! ### Concrete instances used by the claims -/

/-- The grid of Scenario C: shape `(5,4)`, scale 1. -/
def grid54 : Grid := ⟨(5, 4), 1, 1 / 5, 1 / 5, 1 / 25⟩

/-- A 1×1 grid with unit scale (`dx = dy = cell_area = 1`). -/
def grid11 : Grid := ⟨(1, 1), 1, 1, 1, 1⟩

/-- A 2×2 grid with unit scale. -/
def grid22 : Grid := ⟨(2, 2), 1, 1 / 2, 1 / 2, 1 / 4⟩

/-- A 1×1 numpy array holding one value. -/
def nd11 (v : ℚ) : NDArr := ⟨[1, 1], [v]⟩

/-- A 1×1 `Array2D` over `grid11`. -/
def arr11 (v : ℚ) : Array2D := ⟨nd11 v, 1, 1, [1, 1]⟩

/-- The `Fluid` built by `Fluid.__init__` on `grid11` with `gamma = 7/5`. -/
def fluid11 : Fluid :=
  ⟨grid11, 7 / 5, arr11 (6 / 5), arr11 (4053 / 4000), arr11 0, arr11 0⟩

/-- A constant 2×2 `Array2D` over `grid22`. -/
def arr22 (v : ℚ) : Array2D := ⟨⟨[2, 2], List.replicate 4 v⟩, 1 / 2, 1 / 2, [2, 2]⟩

/-- The `Fluid` built by `Fluid.__init__` on `grid22` with `gamma = 7/5`. -/
def fluid22 : Fluid :=
  ⟨grid22, 7 / 5, arr22 (6 / 5), arr22 (4053 / 4000), arr22 0, arr22 0⟩

/-- A constant 3×3 `Array2D` (shape `[3,3]` does not match `grid22`'s shape
`(2,2)`, though both are 2-dimensional). -/
def arr33 : Array2D := ⟨⟨[3, 3], List.replicate 9 1⟩, 1 / 2, 1 / 2, [3, 3]⟩

/-! ### surface.py : colour metric -/

/-- An RGB colour: the three channel values. -/
abbrev Colour := ℚ × ℚ × ℚ

/-- The weighted sum inside the square root of `Image._colour_diff`:
with `rgb_diff = rgb1 - rgb2` and `rgb_mean = (rgb1 + rgb2) / 2`, the
channel weights are `(2 + mean_r, 4, 3 - mean_r)` and the sum is
`Σ diff_i² * w_i`. -/
def colourDiffSq (rgb1 rgb2 : Colour) : ℚ :=
  let dr := rgb1.1 - rgb2.1
  let dg := rgb1.2.1 - rgb2.2.1
  let db := rgb1.2.2 - rgb2.2.2
  let mr := (rgb1.1 + rgb2.1) / 2
  dr ^ 2 * (2 + mr) + dg ^ 2 * 4 + db ^ 2 * (3 - mr)

/-- The value `Image._colour_diff` computes before validating it:
`sqrt(sum(square(rgb_diff) * weights)) / 3`. -/
noncomputable def colour_diff_raw (rgb1 rgb2 : Colour) : ℝ :=
  Real.sqrt (colourDiffSq rgb1 rgb2) / 3

open Classical in
/-- `DecimalFraction(value)` on a real: raises `ValueError` ("Value is less
than zero." / "Value is greater than one.") outside `[0,1]`, otherwise
returns the value. -/
noncomputable def decimalFractionR (value : ℝ) : Except Err ℝ :=
  if value < 0 then .error .valueError
  else if value > 1 then .error .valueError
  else .ok value

/-- `Image._colour_diff(rgb1, rgb2)` on two single colours: the raw weighted
Euclidean value passed through the `DecimalFraction` range validation. -/
noncomputable def colour_diff (rgb1 rgb2 : Colour) : Except Err ℝ :=
  decimalFractionR (colour_diff_raw rgb1 rgb2)

/-! ### surface.py : image, indexing and masks -/

/-- A decoded image: a list of rows of RGB samples. -/
abbrev Img := List (List Colour)

/-- `image.shape[:2]`: the number of rows and the length of the first row. -/
def imgShape (img : Img) : ℕ × ℕ := (img.length, (img.getD 0 []).length)

/-- The pixel at a (row, column) cell, with an arbitrary default outside the
stored data (all uses are guarded by bounds facts). -/
def pixel (img : Img) (c : ℕ × ℕ) : Colour := ((img.getD c.1 []).getD c.2 (0, 0, 0))

/-- The cell lies inside the stored image data. -/
def inShape (img : Img) (c : ℕ × ℕ) : Prop :=
  c.1 < img.length ∧ c.2 < (img.getD c.1 []).length

instance (img : Img) (c : ℕ × ℕ) : Decidable (inShape img c) := by
  unfold inShape; infer_instance

/-- numpy index semantics along one axis of length `n`: a negative index `i`
counts from the end (`i + n`), and an index outside `[-n, n)` raises
`IndexError`. -/
def npWrapIdx (n : ℕ) (i : ℤ) : Except Err ℕ :=
  if i < 0 then
    if i + n < 0 then .error .indexError else .ok (i + n).toNat
  else if i < n then .ok i.toNat else .error .indexError

/-- `self.image[position]` for a 2-tuple `position`: numpy indexing of the
first two axes, yielding the cell whose RGB triple is read. -/
def npGetPixel (img : Img) (position : ℤ × ℤ) : Except Err (ℕ × ℕ) :=
  (npWrapIdx img.length position.1).bind fun i =>
    (npWrapIdx (img.getD i []).length position.2).bind fun j => .ok (i, j)

/-- `RGBColour(value)` on a pixel: the structural shape checks hold for a
triple, and `DecimalFraction(value)` raises `ValueError` when `np.any` finds
a channel below 0 or above 1. -/
def rgbColourCheck (c : Colour) : Except Err Colour :=
  if c.1 < 0 ∨ c.2.1 < 0 ∨ c.2.2 < 0 then .error .valueError
  else if c.1 > 1 ∨ c.2.1 > 1 ∨ c.2.2 > 1 then .error .valueError
  else .ok c

/-- The raw threshold mask `colour_diff <= tolerance` built by
`Image._surface_mask` (the `Mask2D` named `colour_mask` in the source). -/
def colour_mask (img : Img) (colour : Colour) (tolerance : ℚ) : (ℕ × ℕ) → Prop :=
  fun c => colour_diff_raw (pixel img c) colour ≤ (tolerance : ℝ)

/-- 8-adjacency of two distinct cells: they differ by at most one along each
axis (they share an edge or a corner), matching the all-true 3×3 connection
pattern passed to `scipy.ndimage.label`. -/
def adj8 (a b : ℕ × ℕ) : Prop :=
  a ≠ b ∧ Nat.dist a.1 b.1 ≤ 1 ∧ Nat.dist a.2 b.2 ≤ 1

/-- One step between mask cells: 8-adjacent in-bounds cells that are both
true in the mask. -/
def stepRel (img : Img) (mask : (ℕ × ℕ) → Prop) (a b : ℕ × ℕ) : Prop :=
  adj8 a b ∧ inShape img a ∧ inShape img b ∧ mask a ∧ mask b

/-- Membership in the same 8-connected component: a chain of `stepRel` steps.
This is the reachability `scipy.ndimage.label` computes with the all-true
3×3 structuring element. -/
def Reach (img : Img) (mask : (ℕ × ℕ) → Prop) : (ℕ × ℕ) → (ℕ × ℕ) → Prop :=
  Relation.ReflTransGen (stepRel img mask)

/-- `Image._remove_disconnected(mask, position)`: `scipy.ndimage.label`
assigns every true cell the positive label of its 8-connected component and
every false cell the background label 0, so
`group_mask == group_mask[position]` holds at `c` iff either the position is
a true cell and `c` is a true cell of the same component, or the position is
a false cell and `c` is also a false (background) cell. -/
def remove_disconnected (img : Img) (mask : (ℕ × ℕ) → Prop) (position : ℕ × ℕ) :
    (ℕ × ℕ) → Prop :=
  fun c => (mask position ∧ mask c ∧ Reach img mask position c)
    ∨ (¬ mask position ∧ ¬ mask c)

open Classical in
/-- `Image._surface_mask(position, tolerance)`:
1. raise `ValueError` if `_is_in(position)` is false (the Image's grid shape
   is `image.shape[:2]`);
2. read and validate the selected colour `RGBColour(self.image[position])`
   (numpy indexing, so a negative component wraps and an out-of-range one
   raises `IndexError`);
3. compute `_colour_diff(self.image, colour)` over the whole image, whose
   result array is validated by `DecimalFraction`: `ValueError` if any cell's
   value is below 0 or above 1;
4. threshold into `colour_mask = (colour_diff <= tolerance)`;
5. return `_remove_disconnected(colour_mask, position)` (the position indexes
   `group_mask` exactly as it indexed the image). -/
noncomputable def Image.surface_mask (img : Img) (position : ℤ × ℤ) (tolerance : ℚ) :
    Except Err ((ℕ × ℕ) → Prop) :=
  if is_in_shape (imgShape img) position = false then .error .valueError
  else
    (npGetPixel img position).bind fun idx =>
      (rgbColourCheck (pixel img idx)).bind fun colour =>
        if ∃ c : ℕ × ℕ, inShape img c ∧ colour_diff_raw (pixel img c) colour < 0 then
          .error .valueError
        else if ∃ c : ℕ × ℕ, inShape img c ∧ colour_diff_raw (pixel img c) colour > 1 then
          .error .valueError
        else
          .ok (remove_disconnected img (colour_mask img colour tolerance) idx)

/-! ### Concrete surface instances -/

/-- A uniform 5×4 pure-red image, matching the `(5,4)` grid of Scenario D. -/
def img54 : Img := List.replicate 5 (List.replicate 4 ((1 : ℚ), (0 : ℚ), (0 : ℚ)))

/-- A 1×1 pure-red image. -/
def img0 : Img := [[((1 : ℚ), (0 : ℚ), (0 : ℚ))]]

/-- The mask `_surface_mask` returns on `img0` with seed `(0,0)` and
tolerance 0. -/
def mask0 : (ℕ × ℕ) → Prop :=
  remove_disconnected img0 (colour_mask img0 (pixel img0 (0, 0)) 0) (0, 0)

/-- The mask `_surface_mask` returns on `img0` with seed `(0,0)` and
tolerance 1. -/
def mask1 : (ℕ × ℕ) → Prop :=
  remove_disconnected img0 (colour_mask img0 (pixel img0 (0, 0)) 1) (0, 0)

/-- All rows of the image have the stated length. -/
def Rect (img : Img) (rows cols : ℕ) : Prop :=
  img.length = rows ∧ ∀ row ∈ img, row.length = cols

instance (img : Img) (rows cols : ℕ) : Decidable (Rect img rows cols) := by
  unfold Rect; infer_instance

/-- Every channel of the colour lies in `[0, 1]`. -/
def In01 (c : Colour) : Prop :=
  0 ≤ c.1 ∧ c.1 ≤ 1 ∧ 0 ≤ c.2.1 ∧ c.2.1 ≤ 1 ∧ 0 ≤ c.2.2 ∧ c.2.2 ≤ 1

instance (c : Colour) : Decidable (In01 c) := by
  unfold In01; infer_instance

/-- Every pixel of the image has all channels in `[0, 1]`. -/
def ChannelsIn01 (img : Img) : Prop :=
  ∀ row ∈ img, ∀ c ∈ row, In01 c

instance (img : Img) : Decidable (ChannelsIn01 img) := by
  unfold ChannelsIn01; infer_instance

/-! ### Helper lemmas: Grid -/

/-- The source's bounds test `pos < 0 and pos > self.shape[idx]` is an
unsatisfiable conjunction on every axis, so `_is_in` accepts everything. -/
lemma is_in_shape_true (shape : ℕ × ℕ) (p : ℤ × ℤ) : is_in_shape shape p = true := by
  unfold is_in_shape
  have h1 : ¬ (p.1 < 0 ∧ p.1 > (shape.1 : ℤ)) := by rintro ⟨a, b⟩; omega
  have h2 : ¬ (p.2 < 0 ∧ p.2 > (shape.2 : ℤ)) := by rintro ⟨a, b⟩; omega
  rw [if_neg h1, if_neg h2]

/-- `_cell_length` on a non-degenerate shape with a positive quotient. -/
lemma cell_length_ok {s1 s2 : ℕ} {scale : ℚ} (hmax : 0 < max s1 s2)
    (hpos : 0 < scale / ((max s1 s2 : ℕ) : ℚ)) :
    Grid.cell_length (s1, s2) scale = .ok (scale / ((max s1 s2 : ℕ) : ℚ)) := by
  unfold Grid.cell_length
  simp only
  rw [if_neg (by omega), if_neg (not_le.mpr hpos)]

/-- `_cell_length` raises the positivity `ValueError` when the quotient is
not positive (and the shape is not degenerate). -/
lemma cell_length_err {s1 s2 : ℕ} {scale : ℚ} (hmax : 0 < max s1 s2)
    (hnonpos : scale / ((max s1 s2 : ℕ) : ℚ) ≤ 0) :
    Grid.cell_length (s1, s2) scale = .error .valueError := by
  unfold Grid.cell_length
  simp only
  rw [if_neg (by omega), if_pos hnonpos]

/-! ### Claim theorems: Grid geometry and bounds checking -/

/-- C9: Grid construction from `(shape, scale)` sets
`dx = dy = scale / max(shape)` and `cell_area = dx * dy`, and fails with the
range `ValueError` whenever the computed cell length is not strictly
positive; in particular `Grid((5,4), 1.0)` yields `dx = dy = 1/5 = 0.2` and
`cell_area = 1/25 = 0.04`.  (The degenerate shape `max(shape) = 0` never
computes a cell length: Python's division raises `ZeroDivisionError` first,
so it is excluded here.) -/
theorem claim_C9_grid_geometry :
    (∀ (s1 s2 : ℕ) (scale : ℚ), 0 < max s1 s2 →
      (0 < scale / ((max s1 s2 : ℕ) : ℚ) →
        Grid.init (s1, s2) scale =
          .ok ⟨(s1, s2), scale, scale / ((max s1 s2 : ℕ) : ℚ), scale / ((max s1 s2 : ℕ) : ℚ),
               scale / ((max s1 s2 : ℕ) : ℚ) * (scale / ((max s1 s2 : ℕ) : ℚ))⟩) ∧
      (scale / ((max s1 s2 : ℕ) : ℚ) ≤ 0 →
        Grid.init (s1, s2) scale = .error .valueError)) ∧
    Grid.init (5, 4) 1 = .ok grid54 ∧
    grid54.dx = 1 / 5 ∧ grid54.dy = 1 / 5 ∧ grid54.cell_area = 1 / 25 := by
  refine ⟨fun s1 s2 scale hmax => ⟨fun hpos => ?_, fun hnonpos => ?_⟩, ?_, rfl, rfl, rfl⟩
  · unfold Grid.init
    rw [cell_length_ok hmax hpos]
    rfl
  · unfold Grid.init
    rw [cell_length_err hmax hnonpos]
    rfl
  · norm_num [Grid.init, Grid.cell_length, grid54, Except.bind, bind]

/-- C1: the claim states that `_is_in` returns true iff
`0 <= position[axis] < shape[axis]` on every axis and that `_surface_mask`
rejects an uncontained seed.  In the code the test
`pos < 0 and pos > self.shape[idx]` is an unsatisfiable conjunction, so
`_is_in` returns `True` for every position whatsoever — in particular for the
seed `(10,10)` on the `(5,4)` grid, where the claim demands `False`; the
extraction then fails only later, with numpy's `IndexError` when the image is
indexed, never with the `ValueError` of the `_is_in` branch. -/
theorem claim_C1_bounds_check :
    (∀ (g : Grid) (p : ℤ × ℤ), g.is_in p = true) ∧
    Grid.init (5, 4) 1 = .ok grid54 ∧
    grid54.is_in (10, 10) = true ∧
    Image.surface_mask img54 (10, 10) (1 / 100) = .error .indexError ∧
    Err.indexError ≠ Err.valueError := by
  refine ⟨fun g p => is_in_shape_true g.shape p, ?_, by decide, rfl, by decide⟩
  norm_num [Grid.init, Grid.cell_length, grid54, Except.bind, bind]

/-! ### Helper lemmas: colour metric -/

lemma colourDiffSq_self (c : Colour) : colourDiffSq c c = 0 := by
  unfold colourDiffSq; ring

lemma colourDiffSq_comm (a b : Colour) : colourDiffSq a b = colourDiffSq b a := by
  unfold colourDiffSq; ring

lemma colour_diff_raw_nonneg (a b : Colour) : 0 ≤ colour_diff_raw a b := by
  unfold colour_diff_raw; positivity

lemma colour_diff_raw_self (c : Colour) : colour_diff_raw c c = 0 := by
  unfold colour_diff_raw
  rw [colourDiffSq_self]
  simp

lemma colour_diff_raw_comm (a b : Colour) : colour_diff_raw a b = colour_diff_raw b a := by
  unfold colour_diff_raw
  rw [colourDiffSq_comm]

/-- With all channels in `[0,1]` the weighted sum under the square root is at
most `(2 + m) + 4 + (3 - m) = 9`. -/
lemma colourDiffSq_le_nine {a b : Colour} (ha : In01 a) (hb : In01 b) :
    colourDiffSq a b ≤ 9 := by
  obtain ⟨ha1, ha2, ha3, ha4, ha5, ha6⟩ := ha
  obtain ⟨hb1, hb2, hb3, hb4, hb5, hb6⟩ := hb
  unfold colourDiffSq
  simp only
  have hdr : (a.1 - b.1) ^ 2 ≤ 1 := by nlinarith
  have hdg : (a.2.1 - b.2.1) ^ 2 ≤ 1 := by nlinarith
  have hdb : (a.2.2 - b.2.2) ^ 2 ≤ 1 := by nlinarith
  have hw1 : (0 : ℚ) ≤ 2 + (a.1 + b.1) / 2 := by linarith
  have hw3 : (0 : ℚ) ≤ 3 - (a.1 + b.1) / 2 := by linarith
  have e1 : (a.1 - b.1) ^ 2 * (2 + (a.1 + b.1) / 2) ≤ 2 + (a.1 + b.1) / 2 := by nlinarith
  have e2 : (a.2.1 - b.2.1) ^ 2 * 4 ≤ 4 := by nlinarith
  have e3 : (a.2.2 - b.2.2) ^ 2 * (3 - (a.1 + b.1) / 2) ≤ 3 - (a.1 + b.1) / 2 := by nlinarith
  linarith

/-- With all channels in `[0,1]` the metric value `sqrt(sum)/3` is at most 1. -/
lemma colour_diff_raw_le_one {a b : Colour} (ha : In01 a) (hb : In01 b) :
    colour_diff_raw a b ≤ 1 := by
  unfold colour_diff_raw
  have h9 : ((colourDiffSq a b : ℚ) : ℝ) ≤ 9 := by
    exact_mod_cast colourDiffSq_le_nine ha hb
  have hsq := Real.sqrt_le_sqrt h9
  have h3 : Real.sqrt 9 = 3 := by
    rw [show (9 : ℝ) = 3 ^ 2 by norm_num, Real.sqrt_sq (by norm_num : (0 : ℝ) ≤ 3)]
  rw [h3] at hsq
  linarith

/-- The `DecimalFraction` validation passes on any value in `[0,1]`. -/
lemma decimalFractionR_ok {v : ℝ} (h0 : 0 ≤ v) (h1 : v ≤ 1) :
    decimalFractionR v = .ok v := by
  unfold decimalFractionR
  rw [if_neg (not_lt.mpr h0), if_neg (not_lt.mpr h1)]

/-! ### Helper lemmas: image indexing and the surface mask -/

lemma okBind {α β : Type} (a : α) (f : α → Except Err β) :
    (Except.ok a : Except Err α).bind f = f a := rfl

lemma npWrapIdx_ok {n : ℕ} {i : ℤ} (h0 : 0 ≤ i) (h1 : i < (n : ℤ)) :
    npWrapIdx n i = .ok i.toNat := by
  unfold npWrapIdx
  rw [if_neg (not_lt.mpr h0), if_pos h1]

lemma row_length {img : Img} {rows cols : ℕ} (hr : Rect img rows cols)
    {i : ℕ} (hi : i < img.length) : (img.getD i []).length = cols := by
  rw [List.getD_eq_getElem img [] hi]
  exact hr.2 _ (List.getElem_mem hi)

lemma seed_inShape {img : Img} {rows cols : ℕ} (hr : Rect img rows cols)
    {p : ℤ × ℤ} (h1 : 0 ≤ p.1) (h2 : p.1 < (rows : ℤ)) (h3 : 0 ≤ p.2)
    (h4 : p.2 < (cols : ℤ)) : inShape img (p.1.toNat, p.2.toNat) := by
  have hl : p.1.toNat < img.length := by rw [hr.1]; omega
  refine ⟨hl, ?_⟩
  show p.2.toNat < (img.getD p.1.toNat []).length
  rw [row_length hr hl]
  omega

lemma pixel_in01 {img : Img} (hch : ChannelsIn01 img) {c : ℕ × ℕ}
    (hc : inShape img c) : In01 (pixel img c) := by
  obtain ⟨h1, h2⟩ := hc
  unfold pixel
  rw [List.getD_eq_getElem img [] h1] at h2 ⊢
  rw [List.getD_eq_getElem _ _ h2]
  exact hch _ (List.getElem_mem h1) _ (List.getElem_mem h2)

lemma rgbColourCheck_ok {c : Colour} (h : In01 c) : rgbColourCheck c = .ok c := by
  obtain ⟨h1, h2, h3, h4, h5, h6⟩ := h
  unfold rgbColourCheck
  rw [if_neg (by simp only [not_or, not_lt]; exact ⟨h1, h3, h5⟩),
     if_neg (by simp only [not_or, not_lt]; exact ⟨h2, h4, h6⟩)]

lemma npGetPixel_ok {img : Img} {rows cols : ℕ} (hr : Rect img rows cols)
    {p : ℤ × ℤ} (h1 : 0 ≤ p.1) (h2 : p.1 < (rows : ℤ)) (h3 : 0 ≤ p.2)
    (h4 : p.2 < (cols : ℤ)) : npGetPixel img p = .ok (p.1.toNat, p.2.toNat) := by
  have hl : p.1.toNat < img.length := by rw [hr.1]; omega
  have hi : npWrapIdx img.length p.1 = .ok p.1.toNat := by
    refine npWrapIdx_ok h1 ?_
    rw [hr.1]
    exact h2
  have hj : npWrapIdx (img.getD p.1.toNat []).length p.2 = .ok p.2.toNat := by
    refine npWrapIdx_ok h3 ?_
    rw [row_length hr hl]
    exact h4
  unfold npGetPixel
  rw [hi, okBind, hj, okBind]

/-- Under the hypotheses of the mask claims — a rectangular image with all
channels in `[0,1]` and an in-bounds seed — `_surface_mask` succeeds and
returns the seed's connected component of the threshold mask. -/
lemma surface_mask_eq_ok {img : Img} {rows cols : ℕ} (hr : Rect img rows cols)
    (hch : ChannelsIn01 img) {p : ℤ × ℤ} (h1 : 0 ≤ p.1) (h2 : p.1 < (rows : ℤ))
    (h3 : 0 ≤ p.2) (h4 : p.2 < (cols : ℤ)) (t : ℚ) :
    Image.surface_mask img p t =
      .ok (remove_disconnected img
        (colour_mask img (pixel img (p.1.toNat, p.2.toNat)) t) (p.1.toNat, p.2.toNat)) := by
  have hseed : inShape img (p.1.toNat, p.2.toNat) := seed_inShape hr h1 h2 h3 h4
  have hseed01 : In01 (pixel img (p.1.toNat, p.2.toNat)) := pixel_in01 hch hseed
  have hno1 : ¬ ∃ c : ℕ × ℕ, inShape img c ∧
      colour_diff_raw (pixel img c) (pixel img (p.1.toNat, p.2.toNat)) < 0 := by
    rintro ⟨c, hc, hlt⟩
    exact absurd hlt (not_lt.mpr (colour_diff_raw_nonneg _ _))
  have hno2 : ¬ ∃ c : ℕ × ℕ, inShape img c ∧
      colour_diff_raw (pixel img c) (pixel img (p.1.toNat, p.2.toNat)) > 1 := by
    rintro ⟨c, hc, hgt⟩
    exact absurd hgt (not_lt.mpr (colour_diff_raw_le_one (pixel_in01 hch hc) hseed01))
  unfold Image.surface_mask
  rw [if_neg (by rw [is_in_shape_true]; simp), npGetPixel_ok hr h1 h2 h3 h4, okBind,
     rgbColourCheck_ok hseed01, okBind, if_neg hno1, if_neg hno2]

/-- The seed cell always satisfies the raw threshold mask at a non-negative
tolerance, because the metric of its colour against itself is 0. -/
lemma colour_mask_seed {img : Img} (c : ℕ × ℕ) {t : ℚ} (ht : 0 ≤ t) :
    colour_mask img (pixel img c) t c := by
  unfold colour_mask
  rw [colour_diff_raw_self]
  exact_mod_cast ht

/-- A reflexive-transitive chain of mask steps from a mask cell yields an
explicit path: nonempty, from `a` to `c`, consecutive cells 8-adjacent, and
every cell on it in bounds and in the mask. -/
lemma reach_path {img : Img} {mask : (ℕ × ℕ) → Prop} {a c : ℕ × ℕ}
    (ha : inShape img a ∧ mask a) (h : Reach img mask a c) :
    ∃ l : List (ℕ × ℕ), l.head? = some a ∧ l.getLast? = some c ∧
      List.Chain' adj8 l ∧ ∀ x ∈ l, inShape img x ∧ mask x := by
  induction h with
  | refl => exact ⟨[a], rfl, rfl, List.chain'_singleton a, by simpa using ha⟩
  | tail hab hbc ih =>
    obtain ⟨l, hh, hlast, hchain, hmem⟩ := ih
    obtain ⟨hadj, hsb, hsc, hmb, hmc⟩ := hbc
    refine ⟨l ++ [_], ?_, List.getLast?_concat l, ?_, ?_⟩
    · cases l with
      | nil => simp at hh
      | cons x xs => simpa using hh
    · refine List.Chain'.append hchain (List.chain'_singleton _) ?_
      intro x hx y hy
      simp only [List.head?_cons, Option.mem_def, Option.some.injEq] at hy
      rw [hlast] at hx
      simp only [Option.mem_def, Option.some.injEq] at hx
      subst hx
      subst hy
      exact hadj
    · intro x hx
      rcases List.mem_append.mp hx with hx | hx
      · exact hmem x hx
      · simp only [List.mem_singleton] at hx
        subst hx
        exact ⟨hsc, hmc⟩

/-! ### Claim theorems: surface mask -/

/-- C5: for every rectangular image with channels in `[0,1]`, every seed
within the grid bounds and every tolerance `t ≥ 0`, the mask returned by
`_surface_mask` is true at the seed cell, because the colour difference of
the seed colour with itself is 0. -/
theorem claim_C5_seed_membership (img : Img) (rows cols : ℕ) (p : ℤ × ℤ) (t : ℚ)
    (m : (ℕ × ℕ) → Prop) (hr : Rect img rows cols) (hch : ChannelsIn01 img)
    (h1 : 0 ≤ p.1) (h2 : p.1 < (rows : ℤ)) (h3 : 0 ≤ p.2) (h4 : p.2 < (cols : ℤ))
    (ht : 0 ≤ t) (hm : Image.surface_mask img p t = .ok m) :
    m (p.1.toNat, p.2.toNat) := by
  rw [surface_mask_eq_ok hr hch h1 h2 h3 h4 t] at hm
  injection hm with h
  subst h
  exact Or.inl ⟨colour_mask_seed _ ht, colour_mask_seed _ ht, Relation.ReflTransGen.refl⟩

/-- C5 witness: on the 1×1 red image with seed `(0,0)` and tolerance 0, the
returned mask contains the seed. -/
theorem claim_C5_witness :
    Rect img0 1 1 ∧ ChannelsIn01 img0 ∧ (0 : ℚ) ≤ 0 ∧
    Image.surface_mask img0 (0, 0) 0 = .ok mask0 ∧ mask0 (0, 0) := by
  have hm : Image.surface_mask img0 (0, 0) 0 = .ok mask0 :=
    @surface_mask_eq_ok img0 1 1 (by decide) (by decide) (0, 0)
      (by decide) (by decide) (by decide) (by decide) 0
  exact ⟨by decide, by decide, le_rfl, hm,
    claim_C5_seed_membership img0 1 1 (0, 0) 0 mask0 (by decide) (by decide)
      (by decide) (by decide) (by decide) (by decide) le_rfl hm⟩

/-- C6: every cell true in the returned mask is reachable from the seed by a
path of 8-adjacent cells all of which are true in the raw threshold mask
`colour_diff <= tolerance` (cells within tolerance but not so reachable are
false, since the returned mask is the seed's connected component). -/
theorem claim_C6_connectivity (img : Img) (rows cols : ℕ) (p : ℤ × ℤ) (t : ℚ)
    (m : (ℕ × ℕ) → Prop) (c : ℕ × ℕ) (hr : Rect img rows cols) (hch : ChannelsIn01 img)
    (h1 : 0 ≤ p.1) (h2 : p.1 < (rows : ℤ)) (h3 : 0 ≤ p.2) (h4 : p.2 < (cols : ℤ))
    (ht : 0 ≤ t) (hm : Image.surface_mask img p t = .ok m) (hc : m c) :
    ∃ l : List (ℕ × ℕ), l.head? = some (p.1.toNat, p.2.toNat) ∧ l.getLast? = some c ∧
      List.Chain' adj8 l ∧
      ∀ x ∈ l, inShape img x ∧ colour_mask img (pixel img (p.1.toNat, p.2.toNat)) t x := by
  rw [surface_mask_eq_ok hr hch h1 h2 h3 h4 t] at hm
  injection hm with h
  subst h
  rcases hc with ⟨hseed, hcc, hreach⟩ | ⟨hseed, hcc⟩
  · exact reach_path ⟨seed_inShape hr h1 h2 h3 h4, hseed⟩ hreach
  · exact absurd (colour_mask_seed _ ht) hseed

/-- C6 witness: on the 1×1 red image the seed cell itself is connected to the
seed by the one-cell path. -/
theorem claim_C6_witness :
    Rect img0 1 1 ∧ ChannelsIn01 img0 ∧ (0 : ℚ) ≤ 0 ∧
    Image.surface_mask img0 (0, 0) 0 = .ok mask0 ∧ mask0 (0, 0) ∧
    (∃ l : List (ℕ × ℕ), l.head? = some (0, 0) ∧ l.getLast? = some (0, 0) ∧
      List.Chain' adj8 l ∧
      ∀ x ∈ l, inShape img0 x ∧ colour_mask img0 (pixel img0 (0, 0)) 0 x) := by
  have hm : Image.surface_mask img0 (0, 0) 0 = .ok mask0 :=
    @surface_mask_eq_ok img0 1 1 (by decide) (by decide) (0, 0)
      (by decide) (by decide) (by decide) (by decide) 0
  have hseed : mask0 (0, 0) :=
    Or.inl ⟨colour_mask_seed _ le_rfl, colour_mask_seed _ le_rfl, Relation.ReflTransGen.refl⟩
  exact ⟨by decide, by decide, le_rfl, hm, hseed,
    claim_C6_connectivity img0 1 1 (0, 0) 0 mask0 (0, 0) (by decide) (by decide)
      (by decide) (by decide) (by decide) (by decide) le_rfl hm hseed⟩

/-- C7: tolerance monotonicity — for a fixed image and in-bounds seed and
tolerances `0 ≤ t1 ≤ t2`, every cell true in the mask returned at `t1` is
true in the mask returned at `t2`: the threshold mask grows with the
tolerance and connectivity through a larger mask is preserved. -/
theorem claim_C7_tolerance_monotone (img : Img) (rows cols : ℕ) (p : ℤ × ℤ)
    (t1 t2 : ℚ) (m1 m2 : (ℕ × ℕ) → Prop) (c : ℕ × ℕ) (hr : Rect img rows cols)
    (hch : ChannelsIn01 img) (h1 : 0 ≤ p.1) (h2 : p.1 < (rows : ℤ)) (h3 : 0 ≤ p.2)
    (h4 : p.2 < (cols : ℤ)) (ht : 0 ≤ t1) (ht12 : t1 ≤ t2)
    (hm1 : Image.surface_mask img p t1 = .ok m1)
    (hm2 : Image.surface_mask img p t2 = .ok m2) (hc : m1 c) : m2 c := by
  rw [surface_mask_eq_ok hr hch h1 h2 h3 h4 t1] at hm1
  rw [surface_mask_eq_ok hr hch h1 h2 h3 h4 t2] at hm2
  injection hm1 with e1
  injection hm2 with e2
  subst e1
  subst e2
  have hmono : ∀ x : ℕ × ℕ, colour_mask img (pixel img (p.1.toNat, p.2.toNat)) t1 x →
      colour_mask img (pixel img (p.1.toNat, p.2.toNat)) t2 x := by
    intro x hx
    unfold colour_mask at hx ⊢
    calc colour_diff_raw (pixel img x) (pixel img (p.1.toNat, p.2.toNat)) ≤ (t1 : ℝ) := hx
      _ ≤ (t2 : ℝ) := by exact_mod_cast ht12
  rcases hc with ⟨hseed, hcc, hreach⟩ | ⟨hseed, _⟩
  · refine Or.inl ⟨hmono _ hseed, hmono _ hcc, ?_⟩
    refine Relation.ReflTransGen.mono ?_ hreach
    rintro a b ⟨hadj, hsa, hsb, hma, hmb⟩
    exact ⟨hadj, hsa, hsb, hmono _ hma, hmono _ hmb⟩
  · exact absurd (colour_mask_seed _ ht) hseed

/-- C7 witness: on the 1×1 red image with tolerances `0 ≤ 1`, the seed cell
of the tolerance-0 mask is in the tolerance-1 mask. -/
theorem claim_C7_witness :
    Rect img0 1 1 ∧ ChannelsIn01 img0 ∧ (0 : ℚ) ≤ 0 ∧ (0 : ℚ) ≤ 1 ∧
    Image.surface_mask img0 (0, 0) 0 = .ok mask0 ∧
    Image.surface_mask img0 (0, 0) 1 = .ok mask1 ∧ mask1 (0, 0) := by
  have hm0 : Image.surface_mask img0 (0, 0) 0 = .ok mask0 :=
    @surface_mask_eq_ok img0 1 1 (by decide) (by decide) (0, 0)
      (by decide) (by decide) (by decide) (by decide) 0
  have hm1 : Image.surface_mask img0 (0, 0) 1 = .ok mask1 :=
    @surface_mask_eq_ok img0 1 1 (by decide) (by decide) (0, 0)
      (by decide) (by decide) (by decide) (by decide) 1
  have hseed : mask0 (0, 0) :=
    Or.inl ⟨colour_mask_seed _ le_rfl, colour_mask_seed _ le_rfl, Relation.ReflTransGen.refl⟩
  exact ⟨by decide, by decide, le_rfl, by norm_num, hm0, hm1,
    claim_C7_tolerance_monotone img0 1 1 (0, 0) 0 1 mask0 mask1 (0, 0) (by decide)
      (by decide) (by decide) (by decide) (by decide) (by decide) le_rfl (by norm_num)
      hm0 hm1 hseed⟩

/-! ### Claim theorems: colour metric -/

/-- C8: the colour metric is zero on identical colours and symmetric: for
every colour `c`, `_colour_diff(c, c)` returns 0 (the `DecimalFraction`
validation passes), and for all colours `a`, `b`,
`_colour_diff(a, b) = _colour_diff(b, a)`. -/
theorem claim_C8_colour_diff_identity_symmetry :
    (∀ c : Colour, colour_diff c c = .ok 0) ∧
    (∀ a b : Colour, colour_diff a b = colour_diff b a) := by
  constructor
  · intro c
    unfold colour_diff
    rw [colour_diff_raw_self]
    exact decimalFractionR_ok le_rfl zero_le_one
  · intro a b
    unfold colour_diff
    rw [colour_diff_raw_comm]

/-- C10: for colours whose channels all lie in `[0,1]`, the weighted sum
`d_r²(2+m_r) + 4 d_g² + d_b²(3-m_r)` is at most 9, hence the returned value
`sqrt(sum)/3` lies in `[0,1]` and the `DecimalFraction` range check applied
by `_colour_diff` to its result never raises: the error branch is
unreachable under this precondition. -/
theorem claim_C10_colour_diff_bounded (a b : Colour) (ha : In01 a) (hb : In01 b) :
    colourDiffSq a b ≤ 9 ∧
    0 ≤ colour_diff_raw a b ∧ colour_diff_raw a b ≤ 1 ∧
    colour_diff a b = .ok (colour_diff_raw a b) := by
  refine ⟨colourDiffSq_le_nine ha hb, colour_diff_raw_nonneg a b,
    colour_diff_raw_le_one ha hb, ?_⟩
  unfold colour_diff
  exact decimalFractionR_ok (colour_diff_raw_nonneg a b) (colour_diff_raw_le_one ha hb)

/-- C10 witness: the bound instantiated at pure red against pure cyan (the
pair that attains the extremal red weights). -/
theorem claim_C10_witness :
    In01 ((1 : ℚ), (0 : ℚ), (0 : ℚ)) ∧ In01 ((0 : ℚ), (1 : ℚ), (1 : ℚ)) ∧
    (colourDiffSq ((1 : ℚ), (0 : ℚ), (0 : ℚ)) ((0 : ℚ), (1 : ℚ), (1 : ℚ)) ≤ 9 ∧
     0 ≤ colour_diff_raw ((1 : ℚ), (0 : ℚ), (0 : ℚ)) ((0 : ℚ), (1 : ℚ), (1 : ℚ)) ∧
     colour_diff_raw ((1 : ℚ), (0 : ℚ), (0 : ℚ)) ((0 : ℚ), (1 : ℚ), (1 : ℚ)) ≤ 1 ∧
     colour_diff ((1 : ℚ), (0 : ℚ), (0 : ℚ)) ((0 : ℚ), (1 : ℚ), (1 : ℚ)) =
       .ok (colour_diff_raw ((1 : ℚ), (0 : ℚ), (0 : ℚ)) ((0 : ℚ), (1 : ℚ), (1 : ℚ)))) :=
  ⟨by decide, by decide,
   claim_C10_colour_diff_bounded _ _ (by decide) (by decide)⟩

/-! ### Claim theorems: update_primitive -/

/-- C2 (amended): every call to `update_primitive` fails with `TypeError`
(the `Array2D` class defines no arithmetic operators, so already
`mass / self.grid.cell_area` in `_density` is an unsupported operand
operation), not with the dimensionality `ValueError` the claim calls
`ShapeMismatch`; since the method only assigns the stored arrays after all
four computations succeed, the stored primitive arrays always retain their
prior values. -/
theorem claim_C2_update_primitive_always_type_error :
    ∀ (f : Fluid) (mass x_momentum y_momentum energy : Array2D),
      f.update_primitive mass x_momentum y_momentum energy = .error .typeError ∧
      ∀ f2 : Fluid, f.update_primitive mass x_momentum y_momentum energy ≠ .ok f2 := by
  intro f mass x_momentum y_momentum energy
  exact ⟨rfl, fun f2 h => by simp [Fluid.update_primitive, Fluid.densityOf, npDiv, npBinop,
    bind, Except.bind] at h⟩

/-- C2 counterexample: conserved arrays of shape `[3,3]` on a `(2,2)` grid —
their shape does not match the 2D grid shape, so the claim demands a
`ShapeMismatch` failure; the call instead fails with `TypeError`, which is
not the validation `ValueError`. -/
theorem claim_C2_counterexample :
    Grid.init (2, 2) 1 = .ok grid22 ∧
    Fluid.init grid22 (7 / 5) = .ok fluid22 ∧
    Array2D.init ⟨[3, 3], List.replicate 9 1⟩ (1 / 2) (1 / 2) = .ok arr33 ∧
    fluid22.update_primitive arr33 arr33 arr33 arr33 = .error .typeError ∧
    Err.typeError ≠ Err.valueError := by
  refine ⟨?_, ?_, ?_, rfl, by decide⟩
  · norm_num [Grid.init, Grid.cell_length, grid22, Except.bind, bind]
  · norm_num [Fluid.init, createFlatArray, gridArray, Array2D.init, NDArr.ndim, grid22,
      fluid22, arr22, Except.bind, bind, List.replicate]
  · norm_num [Array2D.init, NDArr.ndim, arr33]

/-- C3: on the unit 1×1 grid (`cell_area = 1`) with `gamma = 7/5`, encode the
primitive state `(rho, vx, vy, p) = (2, 3, 4, 5)` as
`mass = rho*A`, `x_momentum = rho*vx*A`, `y_momentum = rho*vy*A`,
`energy = (p/(gamma-1) + 1/2*rho*(vx^2+vy^2))*A`.  The claimed round trip
fails in the code: `update_primitive` raises `TypeError` before storing
anything, because `Array2D` defines no arithmetic operators.  The spec-level
transform (`update_primitive_spec`) does reproduce `(2, 3, 4, 5)` exactly, so
the claim is right about the intended transform and the code is the slip. -/
theorem claim_C3_round_trip :
    fluid11.update_primitive (arr11 (2 * 1)) (arr11 (2 * 3 * 1)) (arr11 (2 * 4 * 1))
      (arr11 ((5 / (7 / 5 - 1) + 1 / 2 * 2 * ((3 : ℚ) ^ 2 + 4 ^ 2)) * 1)) =
      .error .typeError ∧
    update_primitive_spec grid11 (7 / 5) (nd11 (2 * 1)) (nd11 (2 * 3 * 1)) (nd11 (2 * 4 * 1))
      (nd11 ((5 / (7 / 5 - 1) + 1 / 2 * 2 * ((3 : ℚ) ^ 2 + 4 ^ 2)) * 1)) =
      (nd11 2, nd11 3, nd11 4, nd11 5) := by
  refine ⟨rfl, ?_⟩
  norm_num [update_primitive_spec, grid11, nd11, List.zipWith]

/-- C4: the claim states that `update_primitive` stores
`density = mass/cell_area`, `velocity = momentum/(density*cell_area)` and
`pressure = (energy/cell_area - 0.5*density*(vx^2+vy^2))*(gamma-1)` in strict
order.  On the valid conserved input `(mass, xm, ym, e) = (4, 4, 8, 20)` over
the unit grid the code instead raises `TypeError` (no `Array2D` arithmetic)
and stores nothing; the spec-level transform computes exactly the claimed
values `(4, 1, 2, 4)`. -/
theorem claim_C4_update_primitive_formulas :
    Fluid.init grid11 (7 / 5) = .ok fluid11 ∧
    fluid11.update_primitive (arr11 4) (arr11 4) (arr11 8) (arr11 20) = .error .typeError ∧
    update_primitive_spec grid11 (7 / 5) (nd11 4) (nd11 4) (nd11 8) (nd11 20) =
      (nd11 4, nd11 1, nd11 2, nd11 4) := by
  refine ⟨?_, rfl, ?_⟩
  · norm_num [Fluid.init, createFlatArray, gridArray, Array2D.init, NDArr.ndim, grid11,
      fluid11, arr11, nd11, Except.bind, bind, List.replicate]
  · norm_num [update_primitive_spec, grid11, nd11, List.zipWith]

end FlatFluids
